import Mathlib

/-!
Verification development for the terraform-provider-pomeriumzero repository.

The Go source is shallowly embedded: every Terraform attribute value
(`types.String`, `types.Bool`, `types.List`, `types.Float64`) is a `TfVal`,
JSON values decoded into `map[string]interface{}` are `JVal`/`JObj`, and each
CRUD helper is a function from the outcome of its single HTTP exchange
(request-construction failure, transport failure, or a received response with
a status code and a body-processing result) to the Go function's return
values, paired with the list of HTTP requests the helper issued.

Environment-supplied data (network error text, raw response bodies, JSON
decode results) are inputs to the embedded functions; everything else is
translated directly from the Go code.
-/

namespace PomeriumZero

/-- A Terraform framework attribute value: null, unknown, or a known value.
Models `types.String` / `types.Bool` / `types.List` / `types.Float64`. -/
inductive TfVal (α : Type) where
  | null
  | unknown
  | value (v : α)
deriving DecidableEq, Repr

namespace TfVal

/-- `IsNull()` of the terraform-plugin-framework. -/
def isNull {α : Type} : TfVal α → Bool
  | .null => true
  | _ => false

/-- The `ValueString()` / `ValueBool()` / `ValueFloat64()` pattern: the held
value, or the zero value when null or unknown. -/
def valueOr {α : Type} (dflt : α) : TfVal α → α
  | .value v => v
  | _ => dflt

/-- `ValueString()`: the string, or `""` for null/unknown. -/
def valueString (v : TfVal String) : String := v.valueOr ""

/-- `ValueBool()`: the boolean, or `false` for null/unknown. -/
def valueBool (v : TfVal Bool) : Bool := v.valueOr false

/-- `ValueFloat64()`: the number, or `0` for null/unknown (float64 values are
only ever copied by this provider, so they are modelled as rationals). -/
def valueFloat (v : TfVal Rat) : Rat := v.valueOr 0

end TfVal

/-- A JSON value as decoded by `encoding/json` into `interface{}`.
Arrays carry their elements; objects never appear inside the values this
provider inspects, and nested arrays are represented only as far as the
claims require (an element that is not a string refutes the all-strings
checks no matter its exact shape). -/
inductive JVal where
  | jnull
  | jbool (b : Bool)
  | jstr (s : String)
  | jnum (q : Rat)
  | jarr (elems : List JVal)

/-- A decoded JSON object, `map[string]interface{}`. -/
abbrev JObj := List (String × JVal)

/-- Map lookup, `apiResponse[key]`: `none` models the nil interface that Go
returns for a missing key. -/
def JObj.get? (o : JObj) (k : String) : Option JVal :=
  (o.find? (fun p => p.1 == k)).map (fun p => p.2)

/-- The `map[string]interface{}` being BUILT by the request constructors,
as a lookup function; later inserts overwrite earlier ones, as in Go. -/
abbrev JMap := String → Option JVal

/-- The empty map literal. -/
def JMap.empty : JMap := fun _ => none

/-- `req[k] = v`. -/
def JMap.insert (m : JMap) (k : String) (v : JVal) : JMap :=
  fun q => if q = k then some v else m q

/-- An HTTP request issued through `r.client.Do`. -/
structure HttpRequest where
  method : String
  url : String
deriving DecidableEq, Repr

/-- The outcome of the single HTTP exchange a helper performs:
`http.NewRequestWithContext` failed, `client.Do` failed, or a response was
received with status code `status` and body-processing data `body`. -/
inductive HttpOutcome (β : Type) where
  | reqErr (msg : String)
  | doErr (msg : String)
  | resp (status : Nat) (body : β)

/-- A Go function return that may instead have panicked. -/
inductive GoRet (α : Type) where
  | panicked
  | ret (a : α)

/-- `apiBaseURL` constant. -/
def apiBaseURL : String := "https://console.pomerium.app/api/v0"

/-- `organizationsEndpoint` constant. -/
def organizationsEndpoint : String := apiBaseURL ++ "/organizations"

/-- URL of the routes collection of an organization. -/
def routesUrl (org : String) : String :=
  apiBaseURL ++ "/organizations/" ++ org ++ "/routes"

/-- URL of a single route. -/
def routeUrl (org id : String) : String := routesUrl org ++ "/" ++ id

/-- URL of the policies collection of an organization. -/
def policiesUrl (org : String) : String :=
  apiBaseURL ++ "/organizations/" ++ org ++ "/policies"

/-- URL of a single policy. -/
def policyUrl (org id : String) : String := policiesUrl org ++ "/" ++ id

/-- URL of the settings of a cluster. -/
def settingsUrl (org id : String) : String :=
  apiBaseURL ++ "/organizations/" ++ org ++ "/clusters/" ++ id ++ "/settings"

/-- The digit character of `d` (0..9); `%d` can only produce these. -/
def digitChar : Nat → Char
  | 0 => '0'
  | 1 => '1'
  | 2 => '2'
  | 3 => '3'
  | 4 => '4'
  | 5 => '5'
  | 6 => '6'
  | 7 => '7'
  | 8 => '8'
  | _ => '9'

/-- Decimal digits, most significant first, with explicit fuel (structural
recursion, so terms reduce); `fuel = n` always suffices since `n / 10 < n`
for `n ≥ 10`. -/
def natCharsAux : Nat → Nat → List Char
  | 0, n => [digitChar n]
  | fuel + 1, n =>
    if n < 10 then [digitChar n]
    else natCharsAux fuel (n / 10) ++ [digitChar (n % 10)]

/-- Decimal digits of `n`, most significant first, as produced by Go's
`%d` for a non-negative integer. -/
def natChars (n : Nat) : List Char := natCharsAux n n

/-- Go's `%d` rendering of a non-negative integer. -/
def natStr (n : Nat) : String := String.mk (natChars n)

/-- Does the character list start with the given pattern? -/
def startsWithChars : List Char → List Char → Bool
  | _, [] => true
  | [], _ :: _ => false
  | c :: cs, p :: ps => c == p && startsWithChars cs ps

/-- Substring search over character lists. -/
def hasSubChars : List Char → List Char → Bool
  | [], pat => pat.isEmpty
  | c :: cs, pat => startsWithChars (c :: cs) pat || hasSubChars cs pat

/-- Go's `strings.Contains`. -/
def goContains (s pat : String) : Bool := hasSubChars s.toList pat.toList

/-! ## Route resource (route_resource.go) -/

/-- `RouteResourceModel`. The Go field `From` is rendered as `fromUrl`
(`from` is reserved in Lean) and `Prefix` as `prefixAttr`. -/
structure RouteResourceModel where
  id : TfVal String
  name : TfVal String
  namespaceId : TfVal String
  fromUrl : TfVal String
  toUrls : TfVal (List String)
  allowSpdy : TfVal Bool
  allowWebsockets : TfVal Bool
  enableGoogleCloudServerlessAuthentication : TfVal Bool
  passIdentityHeaders : TfVal Bool
  preserveHostHeader : TfVal Bool
  showErrorDetails : TfVal Bool
  tlsSkipVerify : TfVal Bool
  tlsUpstreamAllowRenegotiation : TfVal Bool
  policyIds : TfVal (List String)
  prefixAttr : TfVal String
  prefixRewrite : TfVal String
  kubernetesServiceAccountToken : TfVal String
deriving DecidableEq, Repr

/-- The Go zero value `RouteResourceModel{}`: every attribute null. -/
def emptyRouteModel : RouteResourceModel :=
  ⟨.null, .null, .null, .null, .null, .null, .null, .null, .null, .null,
   .null, .null, .null, .null, .null, .null, .null⟩

/-- `ElementsAs` into a `var xs []string`: the declared slice keeps its zero
value (here the empty list) unless the attribute holds a known list. -/
def elementsAsStrings (v : TfVal (List String)) : List String :=
  match v with
  | .value xs => xs
  | _ => []

/-- `createRouteRequest`: the `map[string]interface{}` payload for POSTing a
route, required fields first, then each optional field added only when the
model attribute is not null. -/
def createRouteRequest (model : RouteResourceModel) : JMap :=
  let req := JMap.empty
    |>.insert "name" (.jstr model.name.valueString)
    |>.insert "namespaceId" (.jstr model.namespaceId.valueString)
    |>.insert "from" (.jstr model.fromUrl.valueString)
    |>.insert "allowSpdy" (.jbool model.allowSpdy.valueBool)
    |>.insert "enableGoogleCloudServerlessAuthentication"
        (.jbool model.enableGoogleCloudServerlessAuthentication.valueBool)
    |>.insert "showErrorDetails" (.jbool model.showErrorDetails.valueBool)
    |>.insert "tlsSkipVerify" (.jbool model.tlsSkipVerify.valueBool)
    |>.insert "tlsUpstreamAllowRenegotiation"
        (.jbool model.tlsUpstreamAllowRenegotiation.valueBool)
    |>.insert "kubernetesServiceAccountToken"
        (.jstr model.kubernetesServiceAccountToken.valueString)
  let req := if model.toUrls.isNull then req else
    req.insert "to" (.jarr ((elementsAsStrings model.toUrls).map .jstr))
  let req := if model.allowWebsockets.isNull then req else
    req.insert "allowWebsockets" (.jbool model.allowWebsockets.valueBool)
  let req := if model.passIdentityHeaders.isNull then req else
    req.insert "passIdentityHeaders" (.jbool model.passIdentityHeaders.valueBool)
  let req := if model.preserveHostHeader.isNull then req else
    req.insert "preserveHostHeader" (.jbool model.preserveHostHeader.valueBool)
  let req := if model.policyIds.isNull then req else
    req.insert "policyIds" (.jarr ((elementsAsStrings model.policyIds).map .jstr))
  let req := if model.prefixAttr.isNull then req else
    req.insert "prefix" (.jstr model.prefixAttr.valueString)
  let req := if model.prefixRewrite.isNull then req else
    req.insert "prefixRewrite" (.jstr model.prefixRewrite.valueString)
  let req := if model.kubernetesServiceAccountToken.isNull then req else
    req.insert "kubernetesServiceAccountToken"
      (.jstr model.kubernetesServiceAccountToken.valueString)
  req

/-- `updateRouteRequest`: "For this implementation, update request is the
same as create request". -/
def updateRouteRequest (model : RouteResourceModel) : JMap :=
  createRouteRequest model

/-- The unchecked Go type assertion `v.(string)`: succeeds only on a string;
on a nil interface (missing key) or any other dynamic type it panics. -/
def asString : Option JVal → Option String
  | some (.jstr s) => some s
  | _ => none

/-- The `toBool` closure of `mapRouteResponseToModel`: nil or a non-bool
yields a null `types.Bool`. -/
def toBool : Option JVal → TfVal Bool
  | some (.jbool b) => .value b
  | _ => .null

/-- All-strings conversion of a decoded JSON array, as

`reflect.FromValue` does for `types.ListValueFrom` with `StringType`. -/
def asStrings : List JVal → Option (List String)
  | [] => some []
  | .jstr s :: rest => (asStrings rest).map (fun ss => s :: ss)
  | _ => none

/-- `types.ListValueFrom(ctx, types.StringType, xs)` with the diagnostics
discarded: a known list when every element is a string, otherwise the
unknown list the framework returns on conversion failure. -/
def listValueFrom (xs : List JVal) : TfVal (List String) :=
  match asStrings xs with
  | some ss => .value ss
  | none => .unknown

/-- `mapRouteResponseToModel`: `none` models the panic of the four unchecked
string assertions on `id`, `name`, `namespaceId`, `from`; every other field
tolerates a missing or wrongly-typed value. -/
def mapRouteResponseToModel (apiResponse : JObj) : Option RouteResourceModel :=
  match asString (apiResponse.get? "id"), asString (apiResponse.get? "name"),
      asString (apiResponse.get? "namespaceId"),
      asString (apiResponse.get? "from") with
  | some i, some n, some ns, some f =>
    some
      { id := .value i
        name := .value n
        namespaceId := .value ns
        fromUrl := .value f
        toUrls := match apiResponse.get? "to" with
          | some (.jarr xs) => listValueFrom xs
          | _ => .null
        allowSpdy := toBool (apiResponse.get? "allowSpdy")
        allowWebsockets := toBool (apiResponse.get? "allowWebsockets")
        enableGoogleCloudServerlessAuthentication :=
          toBool (apiResponse.get? "enableGoogleCloudServerlessAuthentication")
        passIdentityHeaders := toBool (apiResponse.get? "passIdentityHeaders")
        preserveHostHeader := toBool (apiResponse.get? "preserveHostHeader")
        showErrorDetails := toBool (apiResponse.get? "showErrorDetails")
        tlsSkipVerify := toBool (apiResponse.get? "tlsSkipVerify")
        tlsUpstreamAllowRenegotiation :=
          toBool (apiResponse.get? "tlsUpstreamAllowRenegotiation")
        policyIds := match apiResponse.get? "policyIds" with
          | some (.jarr xs) => listValueFrom xs
          | _ => .null
        prefixAttr := match apiResponse.get? "prefix" with
          | some (.jstr s) => .value s
          | _ => .null
        prefixRewrite := match apiResponse.get? "prefixRewrite" with
          | some (.jstr s) => .value s
          | _ => .null
        kubernetesServiceAccountToken :=
          match apiResponse.get? "kubernetesServiceAccountToken" with
          | some (.jstr s) => .value s
          | _ => .null }
  | _, _, _, _ => none

/-- Body data of a response to `createRoute`/`updateRoute`: either
`io.ReadAll` failed, or it yielded raw text together with the result of
`json.Unmarshal` into a `map[string]interface{}`. -/
abbrev RouteBodyData := Except String (String × Except String JObj)

/-- `createRoute`: POST to the routes collection, expect 201 Created, then
unmarshal and map the response; returns the issued requests and the Go
`(RouteResourceModel, error)` pair (or the panic of the response mapping). -/
def createRouteT (org : String) (_plan : RouteResourceModel)
    (o : HttpOutcome RouteBodyData) :
    List HttpRequest × GoRet (RouteResourceModel × Option String) :=
  match o with
  | .reqErr m => ([], .ret (emptyRouteModel, some ("error creating request: " ++ m)))
  | .doErr m => ([⟨"POST", routesUrl org⟩],
      .ret (emptyRouteModel, some ("error making request: " ++ m)))
  | .resp status body =>
    ([⟨"POST", routesUrl org⟩],
      match body with
      | .error m => .ret (emptyRouteModel, some ("error reading response body: " ++ m))
      | .ok (raw, dec) =>
        if status ≠ 201 then
          .ret (emptyRouteModel, some ("unexpected status code: " ++ natStr status
            ++ ". Response body: " ++ raw))
        else
          match dec with
          | .error m => .ret (emptyRouteModel, some ("error unmarshaling response: " ++ m))
          | .ok apiResponse =>
            match mapRouteResponseToModel apiResponse with
            | some mdl => .ret (mdl, none)
            | none => .panicked)

/-- `readRoute`: GET a single route, expect 200 OK, decode the body into a
map; returns the issued requests and the Go `(map, error)` pair. -/
def readRouteT (org id : String) (o : HttpOutcome (Except String JObj)) :
    List HttpRequest × (Option JObj × Option String) :=
  match o with
  | .reqErr m => ([], (none, some ("error creating request: " ++ m)))
  | .doErr m => ([⟨"GET", routeUrl org id⟩],
      (none, some ("error making request: " ++ m)))
  | .resp status body =>
    ([⟨"GET", routeUrl org id⟩],
      if status ≠ 200 then (none, some ("unexpected status code: " ++ natStr status))
      else
        match body with
        | .error m => (none, some ("error decoding response: " ++ m))
        | .ok route => (some route, none))

/-- `updateRoute`: PUT a single route, expect 200 OK, then unmarshal and map
the response, as `createRoute` does. -/
def updateRouteT (org : String) (plan : RouteResourceModel)
    (o : HttpOutcome RouteBodyData) :
    List HttpRequest × GoRet (RouteResourceModel × Option String) :=
  match o with
  | .reqErr m => ([], .ret (emptyRouteModel, some ("error creating request: " ++ m)))
  | .doErr m => ([⟨"PUT", routeUrl org plan.id.valueString⟩],
      .ret (emptyRouteModel, some ("error making request: " ++ m)))
  | .resp status body =>
    ([⟨"PUT", routeUrl org plan.id.valueString⟩],
      match body with
      | .error m => .ret (emptyRouteModel, some ("error reading response body: " ++ m))
      | .ok (raw, dec) =>
        if status ≠ 200 then
          .ret (emptyRouteModel, some ("unexpected status code: " ++ natStr status
            ++ ". Response body: " ++ raw))
        else
          match dec with
          | .error m => .ret (emptyRouteModel, some ("error unmarshaling response: " ++ m))
          | .ok apiResponse =>
            match mapRouteResponseToModel apiResponse with
            | some mdl => .ret (mdl, none)
            | none => .panicked)

/-- `deleteRoute`: DELETE a single route, expect 204 No Content; returns the
issued requests and the Go `error`. -/
def deleteRouteT (org id : String) (o : HttpOutcome Unit) :
    List HttpRequest × Option String :=
  match o with
  | .reqErr m => ([], some ("error creating request: " ++ m))
  | .doErr m => ([⟨"DELETE", routeUrl org id⟩],
      some ("error making request: " ++ m))
  | .resp status _ =>
    ([⟨"DELETE", routeUrl org id⟩],
      if status ≠ 204 then some ("unexpected status code: " ++ natStr status)
      else none)

/-! ## Policy resource (policy_resource.go, models.go) -/

/-- `Policy`, the API representation of a policy; `PPL` (a
`json.RawMessage`) is kept as its raw text, `Routes` as id/name pairs. -/
structure Policy where
  id : String
  name : String
  description : String
  enforced : Bool
  explanation : String
  namespaceId : String
  ppl : String
  remediation : String
  routes : List (String × String)
deriving DecidableEq, Repr

/-- `PolicyResourceModel`. -/
structure PolicyResourceModel where
  id : TfVal String
  name : TfVal String
  description : TfVal String
  enforced : TfVal Bool
  explanation : TfVal String
  namespaceId : TfVal String
  ppl : TfVal String
  remediation : TfVal String
deriving DecidableEq, Repr

/-- The Go zero value `PolicyResourceModel{}`. -/
def emptyPolicyModel : PolicyResourceModel :=
  ⟨.null, .null, .null, .null, .null, .null, .null, .null⟩

/-- `stringOrEmpty`: converts the literal string "null" to the empty
string and leaves every other string unchanged. -/
def stringOrEmpty (s : String) : String :=
  if s = "null" then "" else s

/-- `updatePolicyResourceModel`: copy a fetched `Policy` into the Terraform
model, routing `name`, `description`, `explanation` and `remediation`
through `stringOrEmpty`. -/
def updatePolicyResourceModel (model : PolicyResourceModel) (policy : Policy) :
    PolicyResourceModel :=
  { model with
    id := .value policy.id
    name := .value (stringOrEmpty policy.name)
    description := .value (stringOrEmpty policy.description)
    enforced := .value policy.enforced
    explanation := .value (stringOrEmpty policy.explanation)
    namespaceId := .value policy.namespaceId
    ppl := .value policy.ppl
    remediation := .value (stringOrEmpty policy.remediation) }

/-- Body data of a response to `createPolicy`/`updatePolicy`: `io.ReadAll`
failed, or raw text plus the result of `json.Unmarshal` into a `Policy`. -/
abbrev PolicyBodyData := Except String (String × Except String Policy)

/-- `createPolicy`: POST to the policies collection, expect 201 Created;
returns the issued requests and the Go `(*Policy, error)` pair (the request
payload marshals data produced by `json.Unmarshal`, which cannot fail, so
the marshal-error branch is unreachable and not modelled). -/
def createPolicyT (org : String) (o : HttpOutcome PolicyBodyData) :
    List HttpRequest × Except String Policy :=
  match o with
  | .reqErr m => ([], .error ("error creating request: " ++ m))
  | .doErr m => ([⟨"POST", policiesUrl org⟩], .error ("error making request: " ++ m))
  | .resp status body =>
    ([⟨"POST", policiesUrl org⟩],
      match body with
      | .error m => .error ("error reading response body: " ++ m)
      | .ok (raw, dec) =>
        if status ≠ 201 then
          .error ("unexpected status code: " ++ natStr status
            ++ ". Response body: " ++ raw)
        else
          match dec with
          | .error m => .error ("error unmarshaling response: " ++ m)
          | .ok createdPolicy => .ok createdPolicy)

/-- `getPolicy`: GET a single policy, expect 200 OK, decode into a `Policy`;
returns the issued requests and the Go `(*Policy, error)` pair. -/
def getPolicyT (org policyID : String) (o : HttpOutcome (Except String Policy)) :
    List HttpRequest × Except String Policy :=
  match o with
  | .reqErr m => ([], .error ("error creating request: " ++ m))
  | .doErr m => ([⟨"GET", policyUrl org policyID⟩],
      .error ("error making request: " ++ m))
  | .resp status body =>
    ([⟨"GET", policyUrl org policyID⟩],
      if status ≠ 200 then .error ("unexpected status code: " ++ natStr status)
      else
        match body with
        | .error m => .error ("error decoding response: " ++ m)
        | .ok policy => .ok policy)

/-- `updatePolicy`: PUT a single policy, expect 200 OK, with a dedicated
message for 404. -/
def updatePolicyT (org policyID : String) (o : HttpOutcome PolicyBodyData) :
    List HttpRequest × Except String Policy :=
  match o with
  | .reqErr m => ([], .error ("error creating request: " ++ m))
  | .doErr m => ([⟨"PUT", policyUrl org policyID⟩],
      .error ("error making request: " ++ m))
  | .resp status body =>
    ([⟨"PUT", policyUrl org policyID⟩],
      match body with
      | .error m => .error ("error reading response body: " ++ m)
      | .ok (raw, dec) =>
        if status = 404 then
          .error ("policy with ID " ++ policyID
            ++ " not found. It may have been deleted outside of Terraform")
        else if status ≠ 200 then
          .error ("unexpected status code: " ++ natStr status
            ++ ". Response body: " ++ raw)
        else
          match dec with
          | .error m => .error ("error unmarshaling response: " ++ m)
          | .ok updatedPolicy => .ok updatedPolicy)

/-- `deletePolicy`: DELETE a single policy, expect 204 No Content; request
construction and transport errors are returned unwrapped. -/
def deletePolicyT (org policyID : String) (o : HttpOutcome Unit) :
    List HttpRequest × Option String :=
  match o with
  | .reqErr m => ([], some m)
  | .doErr m => ([⟨"DELETE", policyUrl org policyID⟩], some m)
  | .resp status _ =>
    ([⟨"DELETE", policyUrl org policyID⟩],
      if status ≠ 204 then some ("unexpected status code: " ++ natStr status)
      else none)

/-- What a `Read` of a resource did to the Terraform state: removed the
resource, reported an error (state unchanged), or stored an updated model. -/
inductive ReadOutcome (α : Type) where
  | removed
  | failed (msg : String)
  | updated (st : α)
deriving DecidableEq, Repr

/-- `PolicyResource.Read`: fetch the policy with the id held in the state;
an error containing "policy not found" removes the resource from state, any
other error is reported, success maps the policy into the state (and then
re-sets the ID attribute explicitly). -/
def policyReadStep (org : String) (st : PolicyResourceModel)
    (o : HttpOutcome (Except String Policy)) :
    List HttpRequest × ReadOutcome PolicyResourceModel :=
  let (trace, res) := getPolicyT org st.id.valueString o
  (trace,
    match res with
    | .error e =>
      if goContains e "policy not found" then .removed else .failed e
    | .ok policy =>
      let m := updatePolicyResourceModel st policy
      .updated { m with id := .value policy.id })

/-! ## Provider configuration (provider.go) -/

/-- One element of the organizations list decoded by `getOrganizationID`. -/
structure OrgEntry where
  id : String
deriving DecidableEq, Repr

/-- `getOrganizationID`: GET the organizations endpoint, expect 200 OK,
decode a list of organizations and require its length to be exactly one;
returns the issued requests and the Go `(string, error)` pair (the error
cases return the empty string, and wrap nothing). -/
def getOrganizationIDT (o : HttpOutcome (Except String (List OrgEntry))) :
    List HttpRequest × (String × Option String) :=
  match o with
  | .reqErr m => ([], ("", some m))
  | .doErr m => ([⟨"GET", organizationsEndpoint⟩], ("", some m))
  | .resp status body =>
    ([⟨"GET", organizationsEndpoint⟩],
      if status ≠ 200 then ("", some ("unexpected status code: " ++ natStr status))
      else
        match body with
        | .error m => ("", some m)
        | .ok organizations =>
          if organizations.length ≠ 1 then
            ("", some "unexpected number of organizations returned")
          else
            match organizations with
            | entry :: _ => (entry.id, none)
            | [] => ("", some "unexpected number of organizations returned"))

/-! ## Cluster settings resource (cluster_settings_resource.go) -/

/-- `ClusterSettings`, the API representation: every field a plain string,
bool or number except `IdentityProviderClientSecret`, which is a `*string`
(so `none` models JSON null). -/
structure ClusterSettings where
  id : String
  address : String
  authenticateServiceUrl : String
  autoApplyChangesets : Bool
  cookieExpire : String
  cookieHttpOnly : Bool
  cookieName : String
  defaultUpstreamTimeout : String
  dnsLookupFamily : String
  identityProvider : String
  identityProviderClientId : String
  identityProviderClientSecret : Option String
  identityProviderUrl : String
  logLevel : String
  passIdentityHeaders : Bool
  proxyLogLevel : String
  skipXffAppend : Bool
  timeoutIdle : String
  timeoutRead : String
  timeoutWrite : String
  tracingSampleRate : Rat
deriving DecidableEq, Repr

/-- `ClusterSettingsResourceModel`. -/
structure ClusterSettingsResourceModel where
  id : TfVal String
  address : TfVal String
  authenticateServiceUrl : TfVal String
  autoApplyChangesets : TfVal Bool
  cookieExpire : TfVal String
  cookieHttpOnly : TfVal Bool
  cookieName : TfVal String
  defaultUpstreamTimeout : TfVal String
  dnsLookupFamily : TfVal String
  identityProvider : TfVal String
  identityProviderClientId : TfVal String
  identityProviderClientSecret : TfVal String
  identityProviderUrl : TfVal String
  logLevel : TfVal String
  passIdentityHeaders : TfVal Bool
  proxyLogLevel : TfVal String
  skipXffAppend : TfVal Bool
  timeoutIdle : TfVal String
  timeoutRead : TfVal String
  timeoutWrite : TfVal String
  tracingSampleRate : TfVal Rat
  codecType : TfVal String
deriving DecidableEq, Repr

/-- Body data of a cluster-settings response carrying a decoded
`ClusterSettings`: the raw body text (used in status-error messages; a
failed `io.ReadAll` there is ignored and yields empty text) and the result
of decoding it. -/
abbrev SettingsBodyData := String × Except String ClusterSettings

/-- `createClusterSettings`: POST to the settings URL of the cluster id
carried in the request payload, expect 201 Created. -/
def createClusterSettingsT (org settingsId : String)
    (o : HttpOutcome SettingsBodyData) :
    List HttpRequest × Except String ClusterSettings :=
  match o with
  | .reqErr m => ([], .error ("error creating request: " ++ m))
  | .doErr m => ([⟨"POST", settingsUrl org settingsId⟩],
      .error ("error making request: " ++ m))
  | .resp status (raw, dec) =>
    ([⟨"POST", settingsUrl org settingsId⟩],
      if status ≠ 201 then
        .error ("unexpected status code: " ++ natStr status
          ++ ". Response body: " ++ raw)
      else
        match dec with
        | .error m => .error ("error decoding response: " ++ m)
        | .ok createdSettings => .ok createdSettings)

/-- `getClusterSettings`: GET the settings of cluster `id`, expect 200 OK,
then overwrite the `ID` of the decoded settings with the requested `id`
("Ensure the ID is not updated with the response ID"). -/
def getClusterSettingsT (org id : String) (o : HttpOutcome SettingsBodyData) :
    List HttpRequest × Except String ClusterSettings :=
  match o with
  | .reqErr m => ([], .error ("error creating request: " ++ m))
  | .doErr m => ([⟨"GET", settingsUrl org id⟩],
      .error ("error making request: " ++ m))
  | .resp status (raw, dec) =>
    ([⟨"GET", settingsUrl org id⟩],
      if status ≠ 200 then
        .error ("unexpected status code: " ++ natStr status
          ++ ". Response body: " ++ raw)
      else
        match dec with
        | .error m => .error ("error decoding response: " ++ m)
        | .ok settings => .ok { settings with id := id })

/-- `updateClusterSettings`: PUT the settings of cluster `id`, expect
200 OK; the decoded response is returned unchanged. -/
def updateClusterSettingsT (org id : String) (o : HttpOutcome SettingsBodyData) :
    List HttpRequest × Except String ClusterSettings :=
  match o with
  | .reqErr m => ([], .error ("error creating request: " ++ m))
  | .doErr m => ([⟨"PUT", settingsUrl org id⟩],
      .error ("error making request: " ++ m))
  | .resp status (raw, dec) =>
    ([⟨"PUT", settingsUrl org id⟩],
      if status ≠ 200 then
        .error ("unexpected status code: " ++ natStr status
          ++ ". Response body: " ++ raw)
      else
        match dec with
        | .error m => .error ("error decoding response: " ++ m)
        | .ok updatedSettings => .ok updatedSettings)

/-- `deleteClusterSettings`: DELETE the settings of cluster `id`, expect
204 No Content; the raw body is only used in the error message. -/
def deleteClusterSettingsT (org id : String) (o : HttpOutcome String) :
    List HttpRequest × Option String :=
  match o with
  | .reqErr m => ([], some ("error creating request: " ++ m))
  | .doErr m => ([⟨"DELETE", settingsUrl org id⟩],
      some ("error making request: " ++ m))
  | .resp status raw =>
    ([⟨"DELETE", settingsUrl org id⟩],
      if status ≠ 204 then
        some ("unexpected status code: " ++ natStr status
          ++ ". Response body: " ++ raw)
      else none)

/-- The in-place state update of `ClusterSettingsResource.Read` (lines
535-601): non-nullable fields copied directly; `authenticate_service_url`,
`identity_provider`, `identity_provider_client_id`,
`identity_provider_url` and `proxy_log_level` become null exactly on the
empty string; `identity_provider_client_secret` becomes null exactly on a
nil pointer; finally the ID is re-set to the requested `id`. The
`codec_type` attribute is not touched. -/
def clusterSettingsReadMap (state : ClusterSettingsResourceModel) (id : String)
    (apiSettings : ClusterSettings) : ClusterSettingsResourceModel :=
  { state with
    address := .value apiSettings.address
    autoApplyChangesets := .value apiSettings.autoApplyChangesets
    cookieExpire := .value apiSettings.cookieExpire
    cookieHttpOnly := .value apiSettings.cookieHttpOnly
    cookieName := .value apiSettings.cookieName
    defaultUpstreamTimeout := .value apiSettings.defaultUpstreamTimeout
    dnsLookupFamily := .value apiSettings.dnsLookupFamily
    logLevel := .value apiSettings.logLevel
    passIdentityHeaders := .value apiSettings.passIdentityHeaders
    skipXffAppend := .value apiSettings.skipXffAppend
    timeoutIdle := .value apiSettings.timeoutIdle
    timeoutRead := .value apiSettings.timeoutRead
    timeoutWrite := .value apiSettings.timeoutWrite
    tracingSampleRate := .value apiSettings.tracingSampleRate
    authenticateServiceUrl :=
      if apiSettings.authenticateServiceUrl ≠ "" then
        .value apiSettings.authenticateServiceUrl
      else .null
    identityProvider :=
      if apiSettings.identityProvider ≠ "" then
        .value apiSettings.identityProvider
      else .null
    identityProviderClientId :=
      if apiSettings.identityProviderClientId ≠ "" then
        .value apiSettings.identityProviderClientId
      else .null
    identityProviderClientSecret :=
      match apiSettings.identityProviderClientSecret with
      | some v => .value v
      | none => .null
    identityProviderUrl :=
      if apiSettings.identityProviderUrl ≠ "" then
        .value apiSettings.identityProviderUrl
      else .null
    proxyLogLevel :=
      if apiSettings.proxyLogLevel = "" then .null
      else .value apiSettings.proxyLogLevel
    id := .value id }

/-- `updateClusterSettingsResourceModel`: copy fetched settings into the
model; the ID assignment is commented out in the source ("the ID should
remain the same as the one in the state"), `proxy_log_level` maps the empty
string to null, the client secret maps a nil pointer to null, and
`codec_type` is not touched. -/
def updateClusterSettingsResourceModel (model : ClusterSettingsResourceModel)
    (settings : ClusterSettings) : ClusterSettingsResourceModel :=
  { model with
    address := .value settings.address
    authenticateServiceUrl := .value settings.authenticateServiceUrl
    autoApplyChangesets := .value settings.autoApplyChangesets
    cookieExpire := .value settings.cookieExpire
    cookieHttpOnly := .value settings.cookieHttpOnly
    cookieName := .value settings.cookieName
    defaultUpstreamTimeout := .value settings.defaultUpstreamTimeout
    dnsLookupFamily := .value settings.dnsLookupFamily
    identityProvider := .value settings.identityProvider
    identityProviderClientId := .value settings.identityProviderClientId
    identityProviderClientSecret :=
      match settings.identityProviderClientSecret with
      | some v => .value v
      | none => .null
    identityProviderUrl := .value settings.identityProviderUrl
    logLevel := .value settings.logLevel
    passIdentityHeaders := .value settings.passIdentityHeaders
    proxyLogLevel :=
      if settings.proxyLogLevel = "" then .null
      else .value settings.proxyLogLevel
    skipXffAppend := .value settings.skipXffAppend
    timeoutIdle := .value settings.timeoutIdle
    timeoutRead := .value settings.timeoutRead
    timeoutWrite := .value settings.timeoutWrite
    tracingSampleRate := .value settings.tracingSampleRate }

/-- `ClusterSettingsResource.Read`: fetch the settings for the id held in
the state; an error containing "settings not found" removes the resource,
any other error is reported, success applies the in-place state update. -/
def clusterReadStep (org : String) (st : ClusterSettingsResourceModel)
    (o : HttpOutcome SettingsBodyData) :
    List HttpRequest × ReadOutcome ClusterSettingsResourceModel :=
  ((getClusterSettingsT org st.id.valueString o).1,
    match (getClusterSettingsT org st.id.valueString o).2 with
    | .error e =>
      if goContains e "settings not found" then .removed else .failed e
    | .ok apiSettings =>
      .updated (clusterSettingsReadMap st st.id.valueString apiSettings))

/-- The `ProxyLogLevel` normalization at the top of
`ClusterSettingsResource.Update`: a non-null empty string becomes null. -/
def normalizeProxyLogLevel (plan : ClusterSettingsResourceModel) :
    ClusterSettingsResourceModel :=
  if ¬plan.proxyLogLevel.isNull ∧ plan.proxyLogLevel.valueString = "" then
    { plan with proxyLogLevel := .null }
  else plan

/-- `ClusterSettingsResource.Update`: the plan's computed `id` carries the
state's value (the schema declares `UseStateForUnknown` on it); after the
`ProxyLogLevel` normalization and unless validation fails, the settings are
PUT under the plan's id and the response merged back into the plan by
`updateClusterSettingsResourceModel`. -/
def clusterUpdateStep (org : String) (st plan0 : ClusterSettingsResourceModel)
    (validationFails : Bool) (o : HttpOutcome SettingsBodyData) :
    List HttpRequest × ReadOutcome ClusterSettingsResourceModel :=
  let plan := normalizeProxyLogLevel { plan0 with id := st.id }
  if validationFails then ([], .failed "Invalid Identity Provider Configuration")
  else
    ((updateClusterSettingsT org plan.id.valueString o).1,
      match (updateClusterSettingsT org plan.id.valueString o).2 with
      | .error e => .failed e
      | .ok settings =>
        .updated (updateClusterSettingsResourceModel plan settings))

/-- One framework-driven operation on a cluster-settings resource. -/
inductive ClusterOp where
  | readOp (o : HttpOutcome SettingsBodyData)
  | updateOp (plan0 : ClusterSettingsResourceModel) (validationFails : Bool)
      (o : HttpOutcome SettingsBodyData)

/-- Apply one operation to the current state: a removal drops the state, a
reported error leaves it unchanged, an update replaces it. -/
def clusterStep (org : String) (st : ClusterSettingsResourceModel) :
    ClusterOp → List HttpRequest × Option ClusterSettingsResourceModel
  | .readOp o =>
    ((clusterReadStep org st o).1,
      match (clusterReadStep org st o).2 with
      | .removed => none
      | .failed _ => some st
      | .updated m => some m)
  | .updateOp plan0 validationFails o =>
    ((clusterUpdateStep org st plan0 validationFails o).1,
      match (clusterUpdateStep org st plan0 validationFails o).2 with
      | .removed => none
      | .failed _ => some st
      | .updated m => some m)

/-- Run a sequence of Read/Update operations from a (possibly already
removed) state, collecting every HTTP request issued. -/
def runClusterOps (org : String) : Option ClusterSettingsResourceModel →
    List ClusterOp → List HttpRequest × Option ClusterSettingsResourceModel
  | none, _ => ([], none)
  | some st, [] => ([], some st)
  | some st, op :: rest =>
    ((clusterStep org st op).1
        ++ (runClusterOps org (clusterStep org st op).2 rest).1,
      (runClusterOps org (clusterStep org st op).2 rest).2)

/-- Does the environment-supplied part of a failing `getPolicy` exchange
(the wrapped request-construction, transport, or decode error text) contain
the phrase "policy not found" once wrapped into the helper's message? -/
def innerHasPhrase : HttpOutcome (Except String Policy) → Bool
  | .reqErr m => goContains ("error creating request: " ++ m) "policy not found"
  | .doErr m => goContains ("error making request: " ++ m) "policy not found"
  | .resp _ (.error m) => goContains ("error decoding response: " ++ m) "policy not found"
  | .resp _ (.ok _) => false

/-- A concrete cluster-settings state holding the id established at
creation/import, used to instantiate theorems. -/
def sampleClusterModel : ClusterSettingsResourceModel :=
  { id := .value "c1", address := .null, authenticateServiceUrl := .null,
    autoApplyChangesets := .null, cookieExpire := .null, cookieHttpOnly := .null,
    cookieName := .null, defaultUpstreamTimeout := .null, dnsLookupFamily := .null,
    identityProvider := .null, identityProviderClientId := .null,
    identityProviderClientSecret := .null, identityProviderUrl := .null,
    logLevel := .null, passIdentityHeaders := .null, proxyLogLevel := .null,
    skipXffAppend := .null, timeoutIdle := .null, timeoutRead := .null,
    timeoutWrite := .null, tracingSampleRate := .null, codecType := .null }

/-- A concrete decoded API response for cluster settings, whose own id
differs from the requested one. -/
def sampleClusterSettings : ClusterSettings :=
  { id := "server-side-id", address := ":443", authenticateServiceUrl := "",
    autoApplyChangesets := true, cookieExpire := "14h", cookieHttpOnly := true,
    cookieName := "_pomerium", defaultUpstreamTimeout := "30s",
    dnsLookupFamily := "V4_ONLY", identityProvider := "",
    identityProviderClientId := "", identityProviderClientSecret := none,
    identityProviderUrl := "", logLevel := "info", passIdentityHeaders := false,
    proxyLogLevel := "", skipXffAppend := false, timeoutIdle := "5m",
    timeoutRead := "30s", timeoutWrite := "0s", tracingSampleRate := 1 / 10 }

/-- A concrete policy as returned by the API. -/
def samplePolicy : Policy :=
  { id := "p1", name := "null", description := "desc", enforced := true,
    explanation := "because", namespaceId := "ns1",
    ppl := "\x7b\"allow\":\x7b\"or\":[]\x7d\x7d", remediation := "null",
    routes := [] }

/-- A concrete decoded route API response carrying the four required
string fields. -/
def sampleRouteResp : JObj :=
  [("id", .jstr "r1"), ("name", .jstr "Verify"), ("namespaceId", .jstr "ns1"),
   ("from", .jstr "https://verify.example.com"), ("allowSpdy", .jbool false),
   ("to", .jarr [.jstr "https://verify.pomerium.com"])]

/-! ## Helper lemmas -/

/-- Looking up the key just inserted yields the inserted value. -/
theorem JMap.insert_self (m : JMap) (k : String) (v : JVal) :
    m.insert k v k = some v := by
  simp [JMap.insert]

/-- Looking up any other key passes through an insert. -/
theorem JMap.insert_ne (m : JMap) (k q : String) (v : JVal) (h : q ≠ k) :
    m.insert k v q = m q := by
  simp [JMap.insert, h]

/-- Every character of a matched pattern occurs in the searched list. -/
theorem startsWithChars_mem : ∀ (l pat : List Char),
    startsWithChars l pat = true → ∀ c ∈ pat, c ∈ l := by
  intro l pat
  induction pat generalizing l with
  | nil => intro _ c hc; cases hc
  | cons p ps ih =>
    intro h c hc
    cases l with
    | nil => simp [startsWithChars] at h
    | cons a as =>
      simp only [startsWithChars, Bool.and_eq_true, beq_iff_eq] at h
      rcases List.mem_cons.mp hc with hc | hc
      · rw [hc, ← h.1]
        exact List.mem_cons_self a as
      · exact List.mem_cons_of_mem a (ih as h.2 c hc)

/-- Every character of a found substring occurs in the searched list. -/
theorem hasSubChars_mem : ∀ (l pat : List Char),
    hasSubChars l pat = true → ∀ c ∈ pat, c ∈ l := by
  intro l
  induction l with
  | nil =>
    intro pat h c hc
    simp [hasSubChars, List.isEmpty_iff] at h
    subst h; cases hc
  | cons a as ih =>
    intro pat h c hc
    simp only [hasSubChars, Bool.or_eq_true] at h
    rcases h with h | h
    · exact startsWithChars_mem _ _ h c hc
    · exact List.mem_cons_of_mem a (ih pat h c hc)

/-- Every digit character is one of '0'..'9'. -/
theorem digitChar_mem (d : Nat) :
    digitChar d ∈ ['0', '1', '2', '3', '4', '5', '6', '7', '8', '9'] := by
  unfold digitChar
  split <;> simp

/-- `natCharsAux` produces only digit characters. -/
theorem natCharsAux_digits : ∀ (fuel n : Nat), ∀ c ∈ natCharsAux fuel n,
    c ∈ ['0', '1', '2', '3', '4', '5', '6', '7', '8', '9'] := by
  intro fuel
  induction fuel with
  | zero =>
    intro n c hc
    simp only [natCharsAux, List.mem_singleton] at hc
    exact hc ▸ digitChar_mem n
  | succ fuel ih =>
    intro n c hc
    unfold natCharsAux at hc
    split at hc
    · simp only [List.mem_singleton] at hc
      exact hc ▸ digitChar_mem n
    · rcases List.mem_append.mp hc with h | h
      · exact ih (n / 10) c h
      · simp only [List.mem_singleton] at h
        exact h ▸ digitChar_mem (n % 10)

/-- Go's `%d` produces only digit characters. -/
theorem natChars_digits : ∀ (n : Nat), ∀ c ∈ natChars n,
    c ∈ ['0', '1', '2', '3', '4', '5', '6', '7', '8', '9'] :=
  fun n => natCharsAux_digits n n

/-- The status-code error message of `getPolicy` never contains the phrase
"policy not found", whatever the status code: the fixed prefix does not
contain the letter 'f' and the rest is all digits. -/
theorem statusMsg_no_phrase (status : Nat) :
    goContains ("unexpected status code: " ++ natStr status) "policy not found"
      = false := by
  by_contra h
  rw [Bool.not_eq_false] at h
  have hf : 'f' ∈ ("unexpected status code: " ++ natStr status).toList := by
    apply hasSubChars_mem _ _ h
    decide
  rw [show ("unexpected status code: " ++ natStr status).toList
        = "unexpected status code: ".toList ++ natChars status from
      String.data_append "unexpected status code: " (natStr status)] at hf
  rcases List.mem_append.mp hf with h1 | h1
  · revert h1; decide
  · have := natChars_digits status 'f' h1
    revert this; decide

/-! ## C3: update request equals create request -/

/-- C3: for every route model the PUT payload built by `updateRouteRequest`
is identical to the POST payload built by `createRouteRequest`: the update
sends the full document. -/
theorem updateRouteRequest_eq_createRouteRequest :
    ∀ model : RouteResourceModel,
      updateRouteRequest model = createRouteRequest model :=
  fun _ => rfl

/-! ## C6: policy model mapping and stringOrEmpty -/

/-- C6: `updatePolicyResourceModel` stores `stringOrEmpty` of the API value
for `name`, `description`, `explanation` and `remediation`;
`stringOrEmpty` maps exactly the four-character string "null" to the empty
string and is the identity on every other string. -/
theorem updatePolicyResourceModel_stringOrEmpty :
    ∀ (model : PolicyResourceModel) (policy : Policy),
      (updatePolicyResourceModel model policy).name
          = .value (stringOrEmpty policy.name)
      ∧ (updatePolicyResourceModel model policy).description
          = .value (stringOrEmpty policy.description)
      ∧ (updatePolicyResourceModel model policy).explanation
          = .value (stringOrEmpty policy.explanation)
      ∧ (updatePolicyResourceModel model policy).remediation
          = .value (stringOrEmpty policy.remediation)
      ∧ stringOrEmpty "null" = ""
      ∧ (∀ s : String, s ≠ "null" → stringOrEmpty s = s) := by
  intro model policy
  refine ⟨rfl, rfl, rfl, rfl, rfl, ?_⟩
  intro s hs
  simp [stringOrEmpty, hs]

/-- Witness for C6: applied to a concrete policy whose `name` and
`remediation` are the literal "null". -/
theorem updatePolicyResourceModel_stringOrEmpty_witness :
    (updatePolicyResourceModel emptyPolicyModel samplePolicy).name = .value ""
    ∧ stringOrEmpty "desc" = "desc" := by
  have h := updatePolicyResourceModel_stringOrEmpty emptyPolicyModel samplePolicy
  exact ⟨h.1.trans (by rfl), h.2.2.2.2.2 "desc" (by decide)⟩

/-! ## C4: organization id resolution -/

/-- C4: `getOrganizationID` succeeds and returns the id of the single
organization exactly when the organizations endpoint answers 200 OK with a
decoded list of exactly one organization; a 200 list of any other length
yields the fixed error and the empty string. -/
theorem getOrganizationID_success_iff_single_org :
    ∀ o : HttpOutcome (Except String (List OrgEntry)),
      (((getOrganizationIDT o).2.2 = none) ↔
        ∃ entry, o = .resp 200 (.ok [entry]))
      ∧ (∀ entry, o = .resp 200 (.ok [entry]) →
          (getOrganizationIDT o).2 = (entry.id, none))
      ∧ (∀ orgs, o = .resp 200 (.ok orgs) → orgs.length ≠ 1 →
          (getOrganizationIDT o).2
            = ("", some "unexpected number of organizations returned")) := by
  intro o
  refine ⟨⟨?_, ?_⟩, ?_, ?_⟩
  · rcases o with m | m | ⟨status, body⟩ <;>
      simp only [getOrganizationIDT] at *
    · intro h; cases h
    · intro h; cases h
    · by_cases hs : status = 200
      · subst hs
        rcases body with m | orgs
        · intro h; simp at h
        · rcases orgs with _ | ⟨entry, rest⟩
          · intro h; simp at h
          · rcases rest with _ | ⟨e2, r2⟩
            · intro _; exact ⟨entry, rfl⟩
            · intro h; simp at h
      · intro h
        simp [hs] at h
  · rintro ⟨entry, rfl⟩
    simp [getOrganizationIDT]
  · rintro entry rfl
    simp [getOrganizationIDT]
  · rintro orgs rfl hlen
    rcases orgs with _ | ⟨entry, rest⟩
    · simp [getOrganizationIDT]
    · rcases rest with _ | ⟨e2, r2⟩
      · simp at hlen
      · simp [getOrganizationIDT]

/-- Witness for C4: a singleton organizations list resolves to its id. -/
theorem getOrganizationID_success_witness :
    (getOrganizationIDT (.resp 200 (.ok [⟨"org-1"⟩]))).2 = ("org-1", none) :=
  (getOrganizationID_success_iff_single_org _).2.1 ⟨"org-1"⟩ rfl

/-! ## C8: the remove-from-state branch of PolicyResource.Read -/

/-- C8 counterexample: the remove branch is reachable. `getPolicy` wraps
the error text of `http.NewRequestWithContext` verbatim
("error creating request: %w"); when that environment-supplied text itself
contains "policy not found" (e.g. the URL echo of a parse failure for a
policy id that embeds the phrase next to a control character), the wrapped
message contains the phrase and `Read` silently removes the policy. -/
theorem policyRead_remove_branch_reachable :
    (policyReadStep "org" emptyPolicyModel
      (.reqErr "parse \"https://console.pomerium.app/api/v0/organizations/org/policies/policy not found\\x00\": net/url: invalid control character in URL")).2
      = .removed := by
  rfl

/-- C8 amended: a removal can only be caused by a wrapped lower-level error
text that itself contains "policy not found"; the messages the code itself
builds never do — in particular, for every received response with a non-200
status (including a 404 for a remotely deleted policy) `Read` reports the
error "unexpected status code: %d" and does not remove the policy. -/
theorem policyRead_non200_reports_error :
    ∀ (org : String) (st : PolicyResourceModel) (o : HttpOutcome (Except String Policy)),
      ((policyReadStep org st o).2 = .removed → innerHasPhrase o = true)
      ∧ (∀ (status : Nat) (body : Except String Policy),
          o = .resp status body → status ≠ 200 →
          (policyReadStep org st o).2
            = .failed ("unexpected status code: " ++ natStr status)) := by
  intro org st o
  constructor
  · rcases o with m | m | ⟨status, body⟩
    · simp only [policyReadStep, getPolicyT, innerHasPhrase]
      split
      · intro _; assumption
      · intro h; cases h
    · simp only [policyReadStep, getPolicyT, innerHasPhrase]
      split
      · intro _; assumption
      · intro h; cases h
    · by_cases hs : status = 200
      · subst hs
        rcases body with m | policy
        · simp only [policyReadStep, getPolicyT, innerHasPhrase,
            if_neg (by omega : ¬(200 : Nat) ≠ 200)]
          split
          · intro _; assumption
          · intro h; cases h
        · simp [policyReadStep, getPolicyT, innerHasPhrase]
      · simp only [policyReadStep, getPolicyT, if_pos hs,
          statusMsg_no_phrase status, Bool.false_eq_true, if_false]
        intro h; cases h
  · rintro status body rfl hs
    simp only [policyReadStep, getPolicyT, if_pos hs,
      statusMsg_no_phrase status, Bool.false_eq_true, if_false]

/-- Witness for C8 amended: a 404 response (policy deleted remotely)
produces a reported error, not a state removal. -/
theorem policyRead_non200_witness :
    (policyReadStep "org" emptyPolicyModel
        (.resp 404 (.error "EOF"))).2
      = .failed "unexpected status code: 404" := by
  have h := (policyRead_non200_reports_error "org" emptyPolicyModel
      (.resp 404 (.error "EOF"))).2 404 (.error "EOF") rfl (by omega)
  rw [h]
  rfl

/-! ## C2: CRUD helper error conditions -/

/-- C2 counterexample: `createRoute` can return an error although the
response status is the expected 201 Created — here the 201 response body
fails to unmarshal — so "returns an error exactly when the status differs
from the expected one" is false. -/
theorem createRoute_error_despite_expected_status :
    ¬ ((∃ msg mdl, (createRouteT "org" emptyRouteModel
          (.resp 201 (.ok ("not json", .error "invalid character")))).2
            = .ret (mdl, some msg))
        ↔ (201 : Nat) ≠ 201) :=
  fun h => (h.mp ⟨"error unmarshaling response: invalid character",
    emptyRouteModel, rfl⟩) rfl

/-- C2 amended: each route CRUD helper returns an error whenever the
received status differs from the verb's expected status (201 create,
200 read/update, 204 delete); with the expected status it can additionally
fail on body read/decode; in every error case it returns no resource data
(the zero model, or nil). For delete, which reads no body, a response
succeeds exactly on 204. -/
theorem route_crud_error_conditions :
    ∀ (org id : String) (plan : RouteResourceModel),
      (∀ (status : Nat) (body : RouteBodyData), status ≠ 201 →
        ∃ msg, (createRouteT org plan (.resp status body)).2
          = .ret (emptyRouteModel, some msg))
      ∧ (∀ (o : HttpOutcome RouteBodyData) mdl,
          (createRouteT org plan o).2 = .ret (mdl, none) →
          ∃ raw apiResponse, o = .resp 201 (.ok (raw, .ok apiResponse)))
      ∧ (∀ (o : HttpOutcome RouteBodyData) mdl msg,
          (createRouteT org plan o).2 = .ret (mdl, some msg) →
          mdl = emptyRouteModel)
      ∧ (∀ (status : Nat) (body : RouteBodyData), status ≠ 200 →
        ∃ msg, (updateRouteT org plan (.resp status body)).2
          = .ret (emptyRouteModel, some msg))
      ∧ (∀ (o : HttpOutcome RouteBodyData) mdl,
          (updateRouteT org plan o).2 = .ret (mdl, none) →
          ∃ raw apiResponse, o = .resp 200 (.ok (raw, .ok apiResponse)))
      ∧ (∀ (o : HttpOutcome RouteBodyData) mdl msg,
          (updateRouteT org plan o).2 = .ret (mdl, some msg) →
          mdl = emptyRouteModel)
      ∧ (∀ (o : HttpOutcome Unit),
          (deleteRouteT org id o).2 = none ↔ ∃ u, o = .resp 204 u)
      ∧ (∀ (status : Nat) (body : Except String JObj), status ≠ 200 →
          (readRouteT org id (.resp status body)).2
            = (none, some ("unexpected status code: " ++ natStr status)))
      ∧ (∀ (o : HttpOutcome (Except String JObj)) route,
          (readRouteT org id o).2 = (some route, none) →
          o = .resp 200 (.ok route))
      ∧ (∀ (o : HttpOutcome (Except String JObj)) msg,
          (readRouteT org id o).2.2 = some msg →
          (readRouteT org id o).2.1 = none) := by
  intro org id plan
  refine ⟨?_, ?_, ?_, ?_, ?_, ?_, ?_, ?_, ?_, ?_⟩
  · intro status body h
    rcases body with m | ⟨raw, dec⟩
    · exact ⟨_, rfl⟩
    · exact ⟨"unexpected status code: " ++ natStr status ++ ". Response body: "
        ++ raw, by simp [createRouteT, if_pos h]⟩
  · intro o mdl h
    rcases o with m | m | ⟨status, body⟩
    · cases h
    · cases h
    · rcases body with m | ⟨raw, dec⟩
      · cases h
      · by_cases hs : status = 201
        · subst hs
          rcases dec with m | apiResponse
          · simp [createRouteT] at h
          · exact ⟨raw, apiResponse, rfl⟩
        · simp [createRouteT, if_pos hs] at h
  · intro o mdl msg h
    rcases o with m | m | ⟨status, body⟩
    · cases h; rfl
    · cases h; rfl
    · rcases body with m | ⟨raw, dec⟩
      · cases h; rfl
      · by_cases hs : status = 201
        · subst hs
          rcases dec with m | apiResponse
          · simp only [createRouteT, if_neg (by omega : ¬(201 : Nat) ≠ 201)] at h
            cases h; rfl
          · simp only [createRouteT, if_neg (by omega : ¬(201 : Nat) ≠ 201)] at h
            rcases hm : mapRouteResponseToModel apiResponse with _ | mdl2 <;>
              rw [hm] at h
            · cases h
            · cases h
        · simp only [createRouteT, if_pos hs] at h
          cases h; rfl
  · intro status body h
    rcases body with m | ⟨raw, dec⟩
    · exact ⟨_, rfl⟩
    · exact ⟨"unexpected status code: " ++ natStr status ++ ". Response body: "
        ++ raw, by simp [updateRouteT, if_pos h]⟩
  · intro o mdl h
    rcases o with m | m | ⟨status, body⟩
    · cases h
    · cases h
    · rcases body with m | ⟨raw, dec⟩
      · cases h
      · by_cases hs : status = 200
        · subst hs
          rcases dec with m | apiResponse
          · simp [updateRouteT] at h
          · exact ⟨raw, apiResponse, rfl⟩
        · simp [updateRouteT, if_pos hs] at h
  · intro o mdl msg h
    rcases o with m | m | ⟨status, body⟩
    · cases h; rfl
    · cases h; rfl
    · rcases body with m | ⟨raw, dec⟩
      · cases h; rfl
      · by_cases hs : status = 200
        · subst hs
          rcases dec with m | apiResponse
          · simp only [updateRouteT, if_neg (by omega : ¬(200 : Nat) ≠ 200)] at h
            cases h; rfl
          · simp only [updateRouteT, if_neg (by omega : ¬(200 : Nat) ≠ 200)] at h
            rcases hm : mapRouteResponseToModel apiResponse with _ | mdl2 <;>
              rw [hm] at h
            · cases h
            · cases h
        · simp only [updateRouteT, if_pos hs] at h
          cases h; rfl
  · intro o
    constructor
    · rcases o with m | m | ⟨status, u⟩
      · intro h; cases h
      · intro h; cases h
      · by_cases hs : status = 204
        · subst hs; intro _; exact ⟨u, rfl⟩
        · simp [deleteRouteT, if_pos hs]
    · rintro ⟨u, rfl⟩
      simp [deleteRouteT]
  · intro status body h
    simp [readRouteT, if_pos h]
  · intro o route h
    rcases o with m | m | ⟨status, body⟩
    · cases h
    · cases h
    · by_cases hs : status = 200
      · subst hs
        rcases body with m | obj
        · simp [readRouteT] at h
        · simp only [readRouteT, if_neg (by omega : ¬(200 : Nat) ≠ 200)] at h
          cases h
          rfl
      · simp [readRouteT, if_pos hs] at h
  · intro o msg h
    rcases o with m | m | ⟨status, body⟩
    · rfl
    · rfl
    · by_cases hs : status = 200
      · subst hs
        rcases body with m | obj
        · rfl
        · simp [readRouteT] at h
      · simp [readRouteT, if_pos hs]

/-- Witness for C2 amended: a 500 response to a delete yields an error, and
a 204 yields success. -/
theorem route_crud_error_conditions_witness :
    (deleteRouteT "org" "r1" (.resp 204 ())).2 = none := by
  exact ((route_crud_error_conditions "org" "r1" emptyRouteModel).2.2.2.2.2.2.1
    (.resp 204 ())).mpr ⟨(), rfl⟩

/-! ## C9: optional field presence in the create-route payload -/

/-- C9: the payload always contains "kubernetesServiceAccountToken" (with
the empty string when the attribute is null), while "prefix",
"prefixRewrite", the lists and the three optional booleans are omitted
exactly when the corresponding attribute is null. -/
theorem createRouteRequest_field_presence :
    ∀ model : RouteResourceModel,
      createRouteRequest model "kubernetesServiceAccountToken"
          = some (.jstr model.kubernetesServiceAccountToken.valueString)
      ∧ (model.kubernetesServiceAccountToken.isNull = true →
          createRouteRequest model "kubernetesServiceAccountToken"
            = some (.jstr ""))
      ∧ (createRouteRequest model "prefix" = none
          ↔ model.prefixAttr.isNull = true)
      ∧ (createRouteRequest model "prefixRewrite" = none
          ↔ model.prefixRewrite.isNull = true)
      ∧ (createRouteRequest model "to" = none
          ↔ model.toUrls.isNull = true)
      ∧ (createRouteRequest model "policyIds" = none
          ↔ model.policyIds.isNull = true)
      ∧ (createRouteRequest model "allowWebsockets" = none
          ↔ model.allowWebsockets.isNull = true)
      ∧ (createRouteRequest model "passIdentityHeaders" = none
          ↔ model.passIdentityHeaders.isNull = true)
      ∧ (createRouteRequest model "preserveHostHeader" = none
          ↔ model.preserveHostHeader.isNull = true) := by
  intro model
  refine ⟨?_, ?_, ?_, ?_, ?_, ?_, ?_, ?_, ?_⟩ <;>
    simp only [createRouteRequest, JMap.insert, JMap.empty, ite_apply] <;>
    simp only [String.reduceEq, if_false, ite_self, reduceIte]
  · cases model.kubernetesServiceAccountToken <;>
      simp [TfVal.isNull, TfVal.valueString, TfVal.valueOr]
  · cases model.prefixAttr <;>
      simp [TfVal.isNull, TfVal.valueString, TfVal.valueOr]
  · cases model.prefixRewrite <;>
      simp [TfVal.isNull, TfVal.valueString, TfVal.valueOr]
  · cases model.toUrls <;>
      simp [TfVal.isNull, TfVal.valueString, TfVal.valueOr]
  · cases model.policyIds <;>
      simp [TfVal.isNull, TfVal.valueString, TfVal.valueOr]
  · cases model.allowWebsockets <;>
      simp [TfVal.isNull, TfVal.valueString, TfVal.valueOr]
  · cases model.passIdentityHeaders <;>
      simp [TfVal.isNull, TfVal.valueString, TfVal.valueOr]
  · cases model.preserveHostHeader <;>
      simp [TfVal.isNull, TfVal.valueString, TfVal.valueOr]

/-- Witness for C9: a model with a null token still carries the key, with
the empty string. -/
theorem createRouteRequest_field_presence_witness :
    createRouteRequest emptyRouteModel "kubernetesServiceAccountToken"
      = some (.jstr "") :=
  (createRouteRequest_field_presence emptyRouteModel).2.1 rfl

/-! ## C10: totality of mapRouteResponseToModel -/

/-- A successful `asString` means the value was present and a string. -/
theorem asString_eq_some {v : Option JVal} {s : String}
    (h : asString v = some s) : v = some (.jstr s) := by
  rcases v with _ | jv
  · cases h
  · cases jv <;> simp_all [asString]

/-- C10: `mapRouteResponseToModel` returns a model (rather than panicking)
exactly when the response holds string values for "id", "name",
"namespaceId" and "from"; every other field tolerates missing or
wrongly-typed values — booleans go through `toBool` (null for anything but
a bool) and a missing "to"/"policyIds" leaves the list null. -/
theorem mapRouteResponseToModel_totality :
    ∀ apiResponse : JObj,
      ((mapRouteResponseToModel apiResponse).isSome = true ↔
        ((∃ s, apiResponse.get? "id" = some (.jstr s))
         ∧ (∃ s, apiResponse.get? "name" = some (.jstr s))
         ∧ (∃ s, apiResponse.get? "namespaceId" = some (.jstr s))
         ∧ (∃ s, apiResponse.get? "from" = some (.jstr s))))
      ∧ (∀ v : Option JVal, (∀ b, v ≠ some (.jbool b)) → toBool v = .null)
      ∧ (∀ mdl, mapRouteResponseToModel apiResponse = some mdl →
          (mdl.allowSpdy = toBool (apiResponse.get? "allowSpdy")
           ∧ mdl.allowWebsockets = toBool (apiResponse.get? "allowWebsockets")
           ∧ mdl.enableGoogleCloudServerlessAuthentication
               = toBool (apiResponse.get? "enableGoogleCloudServerlessAuthentication")
           ∧ mdl.passIdentityHeaders = toBool (apiResponse.get? "passIdentityHeaders")
           ∧ mdl.preserveHostHeader = toBool (apiResponse.get? "preserveHostHeader")
           ∧ mdl.showErrorDetails = toBool (apiResponse.get? "showErrorDetails")
           ∧ mdl.tlsSkipVerify = toBool (apiResponse.get? "tlsSkipVerify")
           ∧ mdl.tlsUpstreamAllowRenegotiation
               = toBool (apiResponse.get? "tlsUpstreamAllowRenegotiation")
           ∧ (apiResponse.get? "to" = none → mdl.toUrls = .null)
           ∧ (apiResponse.get? "policyIds" = none → mdl.policyIds = .null))) := by
  intro o
  refine ⟨⟨?_, ?_⟩, ?_, ?_⟩
  · intro h
    rcases h1 : asString (o.get? "id") with _ | s1 <;>
      rcases h2 : asString (o.get? "name") with _ | s2 <;>
      rcases h3 : asString (o.get? "namespaceId") with _ | s3 <;>
      rcases h4 : asString (o.get? "from") with _ | s4 <;>
      simp only [mapRouteResponseToModel, h1, h2, h3, h4,
        Option.isSome_none, Option.isSome_some] at h <;>
      try cases h
    exact ⟨⟨s1, asString_eq_some h1⟩, ⟨s2, asString_eq_some h2⟩,
      ⟨s3, asString_eq_some h3⟩, ⟨s4, asString_eq_some h4⟩⟩
  · rintro ⟨⟨s1, e1⟩, ⟨s2, e2⟩, ⟨s3, e3⟩, ⟨s4, e4⟩⟩
    simp [mapRouteResponseToModel, e1, e2, e3, e4, asString]
  · intro v hv
    rcases v with _ | jv
    · rfl
    · cases jv <;> first
      | rfl
      | exact absurd rfl (hv _)
  · intro mdl h
    rcases h1 : asString (o.get? "id") with _ | s1 <;>
      rcases h2 : asString (o.get? "name") with _ | s2 <;>
      rcases h3 : asString (o.get? "namespaceId") with _ | s3 <;>
      rcases h4 : asString (o.get? "from") with _ | s4 <;>
      simp only [mapRouteResponseToModel, h1, h2, h3, h4] at h <;>
      try cases h
    refine ⟨rfl, rfl, rfl, rfl, rfl, rfl, rfl, rfl, ?_, ?_⟩
    · intro hto
      simp [hto]
    · intro hpo
      simp [hpo]

/-- Witness for C10: a response carrying the four required strings maps to
a model. -/
theorem mapRouteResponseToModel_totality_witness :
    (mapRouteResponseToModel sampleRouteResp).isSome = true :=
  (mapRouteResponseToModel_totality sampleRouteResp).1.mpr
    ⟨⟨"r1", rfl⟩, ⟨"Verify", rfl⟩, ⟨"ns1", rfl⟩,
     ⟨"https://verify.example.com", rfl⟩⟩

/-! ## C7: at most one HTTP request per helper execution -/

/-- C7: every CRUD helper issues at most one HTTP request per execution,
and none at all when building the request already failed — there is never a
second (retry) request. -/
theorem crud_helpers_single_request :
    ∀ (org id : String) (plan : RouteResourceModel),
      (∀ o : HttpOutcome RouteBodyData, (createRouteT org plan o).1.length ≤ 1
        ∧ (∀ m, o = .reqErr m → (createRouteT org plan o).1 = []))
      ∧ (∀ o : HttpOutcome (Except String JObj),
          (readRouteT org id o).1.length ≤ 1
        ∧ (∀ m, o = .reqErr m → (readRouteT org id o).1 = []))
      ∧ (∀ o : HttpOutcome RouteBodyData, (updateRouteT org plan o).1.length ≤ 1
        ∧ (∀ m, o = .reqErr m → (updateRouteT org plan o).1 = []))
      ∧ (∀ o : HttpOutcome Unit, (deleteRouteT org id o).1.length ≤ 1
        ∧ (∀ m, o = .reqErr m → (deleteRouteT org id o).1 = []))
      ∧ (∀ o : HttpOutcome PolicyBodyData, (createPolicyT org o).1.length ≤ 1
        ∧ (∀ m, o = .reqErr m → (createPolicyT org o).1 = []))
      ∧ (∀ o : HttpOutcome (Except String Policy),
          (getPolicyT org id o).1.length ≤ 1
        ∧ (∀ m, o = .reqErr m → (getPolicyT org id o).1 = []))
      ∧ (∀ o : HttpOutcome PolicyBodyData, (updatePolicyT org id o).1.length ≤ 1
        ∧ (∀ m, o = .reqErr m → (updatePolicyT org id o).1 = []))
      ∧ (∀ o : HttpOutcome Unit, (deletePolicyT org id o).1.length ≤ 1
        ∧ (∀ m, o = .reqErr m → (deletePolicyT org id o).1 = []))
      ∧ (∀ o : HttpOutcome SettingsBodyData,
          (createClusterSettingsT org id o).1.length ≤ 1
        ∧ (∀ m, o = .reqErr m → (createClusterSettingsT org id o).1 = []))
      ∧ (∀ o : HttpOutcome SettingsBodyData,
          (getClusterSettingsT org id o).1.length ≤ 1
        ∧ (∀ m, o = .reqErr m → (getClusterSettingsT org id o).1 = []))
      ∧ (∀ o : HttpOutcome SettingsBodyData,
          (updateClusterSettingsT org id o).1.length ≤ 1
        ∧ (∀ m, o = .reqErr m → (updateClusterSettingsT org id o).1 = []))
      ∧ (∀ o : HttpOutcome String, (deleteClusterSettingsT org id o).1.length ≤ 1
        ∧ (∀ m, o = .reqErr m → (deleteClusterSettingsT org id o).1 = [])) := by
  intro org id plan
  refine ⟨?_, ?_, ?_, ?_, ?_, ?_, ?_, ?_, ?_, ?_, ?_, ?_⟩ <;>
    intro o <;>
    rcases o with m | m | ⟨status, body⟩ <;>
    refine ⟨?_, ?_⟩ <;>
    first
      | (rintro m' h; cases h; rfl)
      | (rintro m' h; cases h)
      | simp [createRouteT, readRouteT, updateRouteT, deleteRouteT,
          createPolicyT, getPolicyT, updatePolicyT, deletePolicyT,
          createClusterSettingsT, getClusterSettingsT,
          updateClusterSettingsT, deleteClusterSettingsT]

/-- Witness for C7: a failed request construction issues no HTTP request. -/
theorem crud_helpers_single_request_witness :
    (readRouteT "org" "r1" (.reqErr "bad url")).1 = [] :=
  ((crud_helpers_single_request "org" "r1" emptyRouteModel).2.1
    (.reqErr "bad url")).2 "bad url" rfl

/-! ## C5: Read of cluster settings -/

/-- C5: a successful `ClusterSettingsResource.Read` stores
`clusterSettingsReadMap`; there each of `authenticate_service_url`,
`identity_provider`, `identity_provider_client_id`,
`identity_provider_url` and `proxy_log_level` is null iff the API returned
the empty string, `identity_provider_client_secret` is null iff the API
returned JSON null, and every other field is copied verbatim (the id
re-set to the requested one). -/
theorem clusterSettings_read_null_normalization :
    ∀ (org : String) (st : ClusterSettingsResourceModel) (status : Nat)
      (raw : String) (s : ClusterSettings),
      (status = 200 →
        (clusterReadStep org st (.resp status (raw, .ok s))).2
          = .updated (clusterSettingsReadMap st st.id.valueString s))
      ∧ (∀ id : String,
          ((clusterSettingsReadMap st id s).authenticateServiceUrl = .null
            ↔ s.authenticateServiceUrl = "")
          ∧ (s.authenticateServiceUrl ≠ "" →
              (clusterSettingsReadMap st id s).authenticateServiceUrl
                = .value s.authenticateServiceUrl)
          ∧ ((clusterSettingsReadMap st id s).identityProvider = .null
            ↔ s.identityProvider = "")
          ∧ (s.identityProvider ≠ "" →
              (clusterSettingsReadMap st id s).identityProvider
                = .value s.identityProvider)
          ∧ ((clusterSettingsReadMap st id s).identityProviderClientId = .null
            ↔ s.identityProviderClientId = "")
          ∧ (s.identityProviderClientId ≠ "" →
              (clusterSettingsReadMap st id s).identityProviderClientId
                = .value s.identityProviderClientId)
          ∧ ((clusterSettingsReadMap st id s).identityProviderUrl = .null
            ↔ s.identityProviderUrl = "")
          ∧ (s.identityProviderUrl ≠ "" →
              (clusterSettingsReadMap st id s).identityProviderUrl
                = .value s.identityProviderUrl)
          ∧ ((clusterSettingsReadMap st id s).proxyLogLevel = .null
            ↔ s.proxyLogLevel = "")
          ∧ (s.proxyLogLevel ≠ "" →
              (clusterSettingsReadMap st id s).proxyLogLevel
                = .value s.proxyLogLevel)
          ∧ ((clusterSettingsReadMap st id s).identityProviderClientSecret
              = .null ↔ s.identityProviderClientSecret = none)
          ∧ (∀ v, s.identityProviderClientSecret = some v →
              (clusterSettingsReadMap st id s).identityProviderClientSecret
                = .value v)
          ∧ (clusterSettingsReadMap st id s).address = .value s.address
          ∧ (clusterSettingsReadMap st id s).autoApplyChangesets
              = .value s.autoApplyChangesets
          ∧ (clusterSettingsReadMap st id s).cookieExpire = .value s.cookieExpire
          ∧ (clusterSettingsReadMap st id s).cookieHttpOnly
              = .value s.cookieHttpOnly
          ∧ (clusterSettingsReadMap st id s).cookieName = .value s.cookieName
          ∧ (clusterSettingsReadMap st id s).defaultUpstreamTimeout
              = .value s.defaultUpstreamTimeout
          ∧ (clusterSettingsReadMap st id s).dnsLookupFamily
              = .value s.dnsLookupFamily
          ∧ (clusterSettingsReadMap st id s).logLevel = .value s.logLevel
          ∧ (clusterSettingsReadMap st id s).passIdentityHeaders
              = .value s.passIdentityHeaders
          ∧ (clusterSettingsReadMap st id s).skipXffAppend
              = .value s.skipXffAppend
          ∧ (clusterSettingsReadMap st id s).timeoutIdle = .value s.timeoutIdle
          ∧ (clusterSettingsReadMap st id s).timeoutRead = .value s.timeoutRead
          ∧ (clusterSettingsReadMap st id s).timeoutWrite = .value s.timeoutWrite
          ∧ (clusterSettingsReadMap st id s).tracingSampleRate
              = .value s.tracingSampleRate
          ∧ (clusterSettingsReadMap st id s).id = .value id) := by
  intro org st status raw s
  constructor
  · rintro rfl
    cases s
    simp only [clusterReadStep, getClusterSettingsT,
      if_neg (by omega : ¬(200 : Nat) ≠ 200)]
    rfl
  · intro id
    refine ⟨?_, ?_, ?_, ?_, ?_, ?_, ?_, ?_, ?_, ?_, ?_, ?_, rfl, rfl, rfl,
      rfl, rfl, rfl, rfl, rfl, rfl, rfl, rfl, rfl, rfl, rfl, rfl⟩
    · by_cases h : s.authenticateServiceUrl = "" <;>
        simp [clusterSettingsReadMap, h]
    · intro h; simp [clusterSettingsReadMap, h]
    · by_cases h : s.identityProvider = "" <;>
        simp [clusterSettingsReadMap, h]
    · intro h; simp [clusterSettingsReadMap, h]
    · by_cases h : s.identityProviderClientId = "" <;>
        simp [clusterSettingsReadMap, h]
    · intro h; simp [clusterSettingsReadMap, h]
    · by_cases h : s.identityProviderUrl = "" <;>
        simp [clusterSettingsReadMap, h]
    · intro h; simp [clusterSettingsReadMap, h]
    · by_cases h : s.proxyLogLevel = "" <;>
        simp [clusterSettingsReadMap, h]
    · intro h; simp [clusterSettingsReadMap, h]
    · rcases h : s.identityProviderClientSecret with _ | v <;>
        simp [clusterSettingsReadMap, h]
    · intro v h; simp [clusterSettingsReadMap, h]

/-- Witness for C5: a 200 response stores the normalized settings; in the
sample, the empty `authenticateServiceUrl` becomes null. -/
theorem clusterSettings_read_null_witness :
    (clusterReadStep "org" sampleClusterModel
        (.resp 200 ("", .ok sampleClusterSettings))).2
      = .updated (clusterSettingsReadMap sampleClusterModel "c1"
          sampleClusterSettings)
    ∧ (clusterSettingsReadMap sampleClusterModel "c1"
        sampleClusterSettings).authenticateServiceUrl = .null := by
  have h := clusterSettings_read_null_normalization "org" sampleClusterModel
    200 "" sampleClusterSettings
  exact ⟨h.1 rfl, (h.2 "c1").1.mpr rfl⟩

/-! ## C1: stability of the cluster-settings id -/

/-- `valueString` of a known value. -/
theorem TfVal.valueString_value (s : String) :
    (TfVal.value s).valueString = s := rfl

/-- Every request issued by `getClusterSettings` targets the settings URL
of the requested id. -/
theorem getClusterSettingsT_urls (org id : String)
    (o : HttpOutcome SettingsBodyData) :
    ∀ r ∈ (getClusterSettingsT org id o).1, r.url = settingsUrl org id := by
  rcases o with m | m | ⟨status, raw, dec⟩ <;>
    simp [getClusterSettingsT]

/-- Every request issued by `updateClusterSettings` targets the settings
URL of the requested id. -/
theorem updateClusterSettingsT_urls (org id : String)
    (o : HttpOutcome SettingsBodyData) :
    ∀ r ∈ (updateClusterSettingsT org id o).1, r.url = settingsUrl org id := by
  rcases o with m | m | ⟨status, raw, dec⟩ <;>
    simp [updateClusterSettingsT]

/-- `getClusterSettings` overwrites the id of the decoded response with the
requested id. -/
theorem getClusterSettingsT_ok_id (org id : String)
    (o : HttpOutcome SettingsBodyData) (s : ClusterSettings) :
    (getClusterSettingsT org id o).2 = .ok s → s.id = id := by
  rcases o with m | m | ⟨status, raw, dec⟩
  · intro h; cases h
  · intro h; cases h
  · by_cases hs : status = 200
    · subst hs
      rcases dec with m | s0
      · intro h
        simp [getClusterSettingsT] at h
      · simp only [getClusterSettingsT, if_neg (by omega : ¬(200 : Nat) ≠ 200)]
        intro h
        cases h
        rfl
    · simp only [getClusterSettingsT, if_pos hs]
      intro h
      cases h

/-- The `ProxyLogLevel` normalization does not change the plan's id. -/
theorem normalizeProxyLogLevel_id (plan : ClusterSettingsResourceModel) :
    (normalizeProxyLogLevel plan).id = plan.id := by
  unfold normalizeProxyLogLevel
  split <;> rfl

/-- `updateClusterSettingsResourceModel` leaves the model's id untouched. -/
theorem updateClusterSettingsResourceModel_id
    (model : ClusterSettingsResourceModel) (settings : ClusterSettings) :
    (updateClusterSettingsResourceModel model settings).id = model.id := rfl

/-- One Read or Update never changes the id held in the surviving state. -/
theorem clusterStep_id (org : String) (st : ClusterSettingsResourceModel)
    (op : ClusterOp) :
    ∀ m, (clusterStep org st op).2 = some m →
      m.id.valueString = st.id.valueString := by
  rcases op with o | ⟨plan0, vf, o⟩
  · intro m h
    simp only [clusterStep, clusterReadStep] at h
    rcases hg : (getClusterSettingsT org st.id.valueString o).2 with e | s <;>
      rw [hg] at h
    · by_cases hc : goContains e "settings not found" = true <;>
        simp [hc] at h
      exact h ▸ rfl
    · simp at h
      rw [← h]
      rfl
  · intro m h
    cases vf
    · simp only [clusterStep, clusterUpdateStep, if_neg Bool.false_ne_true] at h
      rcases hg : (updateClusterSettingsT org
          (normalizeProxyLogLevel { plan0 with id := st.id }).id.valueString
            o).2 with e | s <;>
        rw [hg] at h
      · simp at h
        exact h ▸ rfl
      · simp at h
        rw [← h, updateClusterSettingsResourceModel_id, normalizeProxyLogLevel_id]
    · simp only [clusterStep, clusterUpdateStep, if_pos rfl] at h
      simp at h
      exact h ▸ rfl

/-- Every request a Read or Update issues targets the settings URL built
from the id currently held in the state. -/
theorem clusterStep_urls (org : String) (st : ClusterSettingsResourceModel)
    (op : ClusterOp) :
    ∀ r ∈ (clusterStep org st op).1,
      r.url = settingsUrl org st.id.valueString := by
  rcases op with o | ⟨plan0, vf, o⟩
  · intro r hr
    simp only [clusterStep, clusterReadStep] at hr
    exact getClusterSettingsT_urls org st.id.valueString o r hr
  · intro r hr
    cases vf
    · simp only [clusterStep, clusterUpdateStep, if_neg Bool.false_ne_true] at hr
      have := updateClusterSettingsT_urls org
        (normalizeProxyLogLevel { plan0 with id := st.id }).id.valueString o r hr
      rw [this, normalizeProxyLogLevel_id]
    · simp only [clusterStep, clusterUpdateStep, if_pos rfl] at hr
      simp at hr

/-- C1: across any sequence of Read and Update operations the surviving
cluster-settings state keeps the id it started with, every request URL is
built from that same id, and `getClusterSettings` overwrites the id of the
decoded response with the requested one. -/
theorem clusterSettings_id_stable_under_read_update :
    ∀ (org : String) (st : ClusterSettingsResourceModel) (ops : List ClusterOp),
      (∀ m, (runClusterOps org (some st) ops).2 = some m →
          m.id.valueString = st.id.valueString)
      ∧ (∀ r ∈ (runClusterOps org (some st) ops).1,
          r.url = settingsUrl org st.id.valueString)
      ∧ (∀ (id : String) (o : HttpOutcome SettingsBodyData) (s : ClusterSettings),
          (getClusterSettingsT org id o).2 = .ok s → s.id = id) := by
  intro org st ops
  refine ⟨?_, ?_, fun id o s => getClusterSettingsT_ok_id org id o s⟩ <;>
    revert st
  · induction ops with
    | nil =>
      intro st m h
      cases h
      rfl
    | cons op rest ih =>
      intro st m h
      simp only [runClusterOps] at h
      rcases hs : (clusterStep org st op).2 with _ | st1 <;> rw [hs] at h
      · simp [runClusterOps] at h
      · exact (ih st1 m h).trans (clusterStep_id org st op st1 hs)
  · induction ops with
    | nil =>
      intro st r hr
      cases hr
    | cons op rest ih =>
      intro st r hr
      simp only [runClusterOps] at hr
      rcases List.mem_append.mp hr with h | h
      · exact clusterStep_urls org st op r h
      · rcases hs : (clusterStep org st op).2 with _ | st1 <;> rw [hs] at h
        · simp [runClusterOps] at h
        · exact (ih st1 r h).trans
            (by rw [clusterStep_id org st op st1 hs])

/-- Witness for C1: a Read that succeeds against an API response carrying a
different server-side id still leaves the state id (and the request URL)
at the created id "c1". -/
theorem clusterSettings_id_stable_witness :
    (clusterSettingsReadMap sampleClusterModel "c1"
        { sampleClusterSettings with id := "c1" }).id.valueString
      = sampleClusterModel.id.valueString :=
  (clusterSettings_id_stable_under_read_update "org" sampleClusterModel
      [.readOp (.resp 200 ("", .ok sampleClusterSettings))]).1
    (clusterSettingsReadMap sampleClusterModel "c1"
      { sampleClusterSettings with id := "c1" })
    (by rfl)

end PomeriumZero
